import Mathlib

/-!
A verification model of the Seamless Loop Engine in `src/infinite-slider.js`
(class `WMInfiniteSlider`).

Shallow embedding conventions:
* A rendered slide (an `li` on the track) is modelled by its measured
  `offsetWidth` (a rational) together with its `cloned` class flag.
* The track's measured `scrollWidth` is modelled by the usual gapped-row
  layout formula: the sum of the slide widths plus one inter-item gap between
  consecutive slides.  A track that is hidden (or holds only zero-width
  slides) measures zero, while `getComputedStyle(track).gap` still reports
  the configured gap; this is why the gap enters `calculateAnimation`
  independently of the measured widths.
* DOM dataset attributes become explicit state fields:
  `dataset.duplicationAttempts` is an `Option Nat` (absent = `none`) and
  `dataset.initialized` is a `Bool`.
* `requestAnimationFrame` rescheduling is modelled by feeding the retry loop
  an explicit list of per-frame width measurements.
-/

namespace WMInfiniteSlider

/-- A rendered slide on the track: its measured `offsetWidth` and whether it
carries the `cloned` class. -/
structure Slide where
  width : ℚ
  cloned : Bool
deriving DecidableEq, Repr

/-- The mutable per-track state: the child slides, the
`dataset.duplicationAttempts` attribute (absent = `none`) and the
`dataset.initialized` attribute. -/
structure TrackState where
  slides : List Slide
  duplicationAttempts : Option Nat
  initialized : Bool
deriving DecidableEq, Repr

/-- The settings relevant to the timing computation, mirroring the
constructor defaults `speedMobile: 30`, `speedDesktop: 50`. -/
structure Settings where
  speedMobile : ℚ
  speedDesktop : ℚ
deriving DecidableEq, Repr

/-- Constructor defaults from `src/infinite-slider.js` lines 21-22. -/
def defaultSettings : Settings := ⟨30, 50⟩

/-- Sum of the measured widths of a list of slides. -/
def widthSum (l : List Slide) : ℚ := (l.map Slide.width).sum

/-- Measured `scrollWidth` of the track: content widths plus one gap between
each consecutive pair of slides (zero for an empty track). -/
def trackWidth (slides : List Slide) (gap : ℚ) : ℚ :=
  if slides.isEmpty then 0
  else widthSum slides + gap * ((slides.length : ℚ) - 1)

/-- `slide.cloneNode(true)` followed by `clone.classList.add("cloned")`
(lines 370-371): an identical slide carrying the `cloned` class. -/
def cloneSlide (s : Slide) : Slide := { s with cloned := true }

/-- The slides appended by the duplication loop (lines 368-374): `d` full
copies of the captured child list, in order, each node tagged `cloned`. -/
def copies (base : List Slide) : Nat → List Slide
  | 0 => []
  | d + 1 => copies base d ++ base.map cloneSlide

/-- `Math.max(2, Math.ceil((viewportWidth * 3) / trackWidth))` (line 366). -/
def duplications (viewportWidth trackW : ℚ) : Nat :=
  max 2 (⌈viewportWidth * 3 / trackW⌉.toNat)

/-- The three ways a `duplicateSlides` call can return. -/
inductive DupSignal
  | completed
  | scheduledRetry
  | measurementUnavailable
deriving DecidableEq, Repr

/-- One synchronous call of `duplicateSlides` (lines 344-375), with the
track width it measures passed explicitly.  Zero width: read the attempt
counter, abort past 100, otherwise increment it and schedule a retry on the
next frame.  Positive width: clear the counter and append
`duplications viewportWidth trackW` tagged copies of the current children. -/
def duplicateSlides (viewportWidth trackW : ℚ) (t : TrackState) :
    DupSignal × TrackState :=
  if trackW = 0 then
    let attempts := t.duplicationAttempts.getD 0
    if attempts > 100 then (.measurementUnavailable, t)
    else (.scheduledRetry, { t with duplicationAttempts := some (attempts + 1) })
  else
    (.completed,
      { t with
        slides := t.slides ++ copies t.slides (duplications viewportWidth trackW),
        duplicationAttempts := none })

/-- Result of `calculateAnimation`: either the ZeroDistance early return or
the published `(scrollDistance, duration)` pair. -/
inductive CalcSignal
  | zeroDistance
  | published (scrollDistance duration : ℚ)
deriving DecidableEq, Repr

/-- Lines 381-389: sum the `offsetWidth`s of the non-`cloned` children and
add `gap * originalSlides.length`. -/
def calcScrollDistance (slides : List Slide) (gap : ℚ) : ℚ :=
  let originalSlides := slides.filter fun s => !s.cloned
  widthSum originalSlides + gap * (originalSlides.length : ℚ)

/-- `calculateAnimation` (lines 377-411) as a pure computation: the
ZeroDistance guard, the `< 768` speed selection and the
`duration = scrollDistance / speed` formula. -/
def calculateAnimation (slides : List Slide) (gap viewportWidth : ℚ)
    (cfg : Settings) : CalcSignal :=
  let scrollDistance := calcScrollDistance slides gap
  if scrollDistance = 0 then .zeroDistance
  else
    .published scrollDistance
      (scrollDistance /
        (if viewportWidth < 768 then cfg.speedMobile else cfg.speedDesktop))

/-- State after a `calculateAnimation` call: the track (with
`dataset.initialized` possibly set) and the custom properties published to
the rendering layer (`none` when the ZeroDistance guard fired). -/
structure PassResult where
  track : TrackState
  published : Option (ℚ × ℚ)
deriving DecidableEq, Repr

/-- Running `calculateAnimation` against a track: on ZeroDistance the call
returns early touching nothing; otherwise it publishes both custom
properties and sets `dataset.initialized` (lines 391-410). -/
def runCalculateAnimation (gap viewportWidth : ℚ) (cfg : Settings)
    (t : TrackState) : PassResult :=
  match calculateAnimation t.slides gap viewportWidth cfg with
  | .zeroDistance => ⟨t, none⟩
  | .published sd dur => ⟨{ t with initialized := true }, some (sd, dur)⟩

/-- The synchronous pipeline pass of `buildLayout` (lines 199-203) and
`resetSlider` (lines 441-442): `duplicateSlides` with the track width it
measures, then — regardless of how duplication returned —
`calculateAnimation`. -/
def pipelinePass (t : TrackState) (gap viewportWidth : ℚ) (cfg : Settings) :
    PassResult :=
  runCalculateAnimation gap viewportWidth cfg
    (duplicateSlides viewportWidth (trackWidth t.slides gap) t).2

/-- C1: the Timing Calculator's distance formula counts only the non-clone
slides: for a track holding the base sequence followed by any list of
`cloned`-tagged nodes, `scrollDistance` is the sum of the base widths plus
`gap` times the base item count, whatever clones are appended. -/
theorem C1_scrollDistance_uses_only_originals
    (base clones : List Slide) (gap : ℚ)
    (hbase : ∀ s ∈ base, s.cloned = false)
    (hclones : ∀ s ∈ clones, s.cloned = true) :
    calcScrollDistance (base ++ clones) gap
      = widthSum base + gap * (base.length : ℚ) := by
  have hb : base.filter (fun s => !s.cloned) = base :=
    List.filter_eq_self.mpr (fun s hs => by simp [hbase s hs])
  have hc : clones.filter (fun s => !s.cloned) = [] := by
    rw [List.filter_eq_nil_iff]
    intro a ha
    simp [hclones a ha]
  simp only [calcScrollDistance, List.filter_append, hb, hc, List.append_nil]

/-- Witness for C1: Scenario 1 of the spec, with two tagged clones present:
widths 100, 150, 120, gap 20 give scrollDistance 430. -/
theorem C1_scrollDistance_witness :
    calcScrollDistance
      ([⟨100, false⟩, ⟨150, false⟩, ⟨120, false⟩] ++
        [⟨100, true⟩, ⟨150, true⟩, ⟨120, true⟩]) 20 = 430 := by
  have h := C1_scrollDistance_uses_only_originals
    [⟨100, false⟩, ⟨150, false⟩, ⟨120, false⟩]
    [⟨100, true⟩, ⟨150, true⟩, ⟨120, true⟩] 20
    (by decide) (by decide)
  rw [h]; norm_num [widthSum]

/-- C2: on every successful timing pass (non-zero scroll distance), the
published duration is `scrollDistance / speed`, with `speedMobile` used
exactly when the viewport is strictly narrower than 768 pixels and
`speedDesktop` otherwise. -/
theorem C2_duration_formula
    (t : TrackState) (gap viewportWidth : ℚ) (cfg : Settings)
    (h : calcScrollDistance t.slides gap ≠ 0) :
    (runCalculateAnimation gap viewportWidth cfg t).published
      = some (calcScrollDistance t.slides gap,
          calcScrollDistance t.slides gap /
            (if viewportWidth < 768 then cfg.speedMobile
             else cfg.speedDesktop)) := by
  simp only [runCalculateAnimation, calculateAnimation, if_neg h]

/-- Witness for C2: Scenario 1 at desktop width 1024 — distance 430, default
desktop speed 50, duration 43/5 = 8.6 seconds. -/
theorem C2_duration_witness :
    (runCalculateAnimation 20 1024 defaultSettings
        ⟨[⟨100, false⟩, ⟨150, false⟩, ⟨120, false⟩], none, false⟩).published
      = some (430, 43 / 5) := by
  have h := C2_duration_formula
    ⟨[⟨100, false⟩, ⟨150, false⟩, ⟨120, false⟩], none, false⟩
    20 1024 defaultSettings (by norm_num [calcScrollDistance, widthSum])
  rw [h]
  norm_num [calcScrollDistance, widthSum, defaultSettings]

/-- C6: when the computed scroll distance is zero, `calculateAnimation`
signals ZeroDistance and returns early: no parameter pair is published and
a track that was not marked initialized stays unmarked. -/
theorem C6_zeroDistance_publishes_nothing
    (t : TrackState) (gap viewportWidth : ℚ) (cfg : Settings)
    (h : calcScrollDistance t.slides gap = 0)
    (hinit : t.initialized = false) :
    calculateAnimation t.slides gap viewportWidth cfg = .zeroDistance ∧
    (runCalculateAnimation gap viewportWidth cfg t).published = none ∧
    (runCalculateAnimation gap viewportWidth cfg t).track.initialized
      = false := by
  refine ⟨?_, ?_, ?_⟩ <;>
    simp only [runCalculateAnimation, calculateAnimation, if_pos h, hinit]

/-- Witness for C6: a single zero-width item with zero gap — the pass
publishes nothing and leaves the track un-initialized. -/
theorem C6_zeroDistance_witness :
    calculateAnimation [⟨0, false⟩] 0 500 defaultSettings
        = CalcSignal.zeroDistance ∧
    (runCalculateAnimation 0 500 defaultSettings
        ⟨[⟨0, false⟩], none, false⟩).published = none ∧
    (runCalculateAnimation 0 500 defaultSettings
        ⟨[⟨0, false⟩], none, false⟩).track.initialized = false :=
  C6_zeroDistance_publishes_nothing
    ⟨[⟨0, false⟩], none, false⟩ 0 500 defaultSettings
    (by norm_num [calcScrollDistance, widthSum]) rfl

theorem cloneSlide_width (s : Slide) : (cloneSlide s).width = s.width := rfl

theorem cloneSlide_cloned (s : Slide) : (cloneSlide s).cloned = true := rfl

theorem widthSum_nil : widthSum [] = 0 := rfl

theorem widthSum_cons (s : Slide) (l : List Slide) :
    widthSum (s :: l) = s.width + widthSum l := by
  simp [widthSum]

theorem widthSum_append (a b : List Slide) :
    widthSum (a ++ b) = widthSum a + widthSum b := by
  simp [widthSum]

theorem widthSum_map_cloneSlide (l : List Slide) :
    widthSum (l.map cloneSlide) = widthSum l := by
  induction l with
  | nil => rfl
  | cons a l ih => simp [widthSum_cons, cloneSlide_width, ih]

theorem widthSum_copies (b : List Slide) (d : Nat) :
    widthSum (copies b d) = (d : ℚ) * widthSum b := by
  induction d with
  | zero => simp [copies, widthSum_nil]
  | succ d ih =>
    rw [copies, widthSum_append, ih, widthSum_map_cloneSlide]
    push_cast
    ring

theorem length_copies (b : List Slide) (d : Nat) :
    (copies b d).length = d * b.length := by
  induction d with
  | zero => simp [copies]
  | succ d ih =>
    rw [copies, List.length_append, ih, List.length_map]
    ring

theorem copies_cloned (b : List Slide) (d : Nat) :
    ∀ s ∈ copies b d, s.cloned = true := by
  induction d with
  | zero => simp [copies]
  | succ d ih =>
    intro s hs
    rw [copies, List.mem_append] at hs
    rcases hs with h | h
    · exact ih s h
    · rcases List.mem_map.mp h with ⟨a, _, rfl⟩
      exact cloneSlide_cloned a

theorem runCalculateAnimation_slides (gap viewportWidth : ℚ) (cfg : Settings)
    (t : TrackState) :
    (runCalculateAnimation gap viewportWidth cfg t).track.slides = t.slides := by
  unfold runCalculateAnimation
  cases calculateAnimation t.slides gap viewportWidth cfg <;> rfl

/-- C3: when the measured track width is positive, `duplicateSlides` clears
the attempt counter and appends exactly
`max 2 ⌈(viewportWidth * 3) / trackWidth⌉` full copies of the current child
list, in order, every appended node carrying the `cloned` tag; in
particular viewport 500 with track width 300 yields 5 copies. -/
theorem C3_duplication_count
    (viewportWidth trackW : ℚ) (t : TrackState) (h : 0 < trackW) :
    duplicateSlides viewportWidth trackW t =
      (.completed,
        { t with
          slides := t.slides ++
            copies t.slides (duplications viewportWidth trackW),
          duplicationAttempts := none }) ∧
    (∀ s ∈ copies t.slides (duplications viewportWidth trackW),
        s.cloned = true) ∧
    duplications 500 300 = 5 := by
  refine ⟨?_, copies_cloned _ _, ?_⟩
  · simp [duplicateSlides, ne_of_gt h]
  · have h5 : (500 * 3 / 300 : ℚ) = ((5 : ℤ) : ℚ) := by norm_num
    rw [duplications, h5, Int.ceil_intCast]
    rfl

/-- Witness for C3: Scenario 2 of the spec — viewport 500, track width 300,
a one-item base sequence — applied through the general theorem. -/
theorem C3_duplication_witness :
    duplicateSlides 500 300 ⟨[⟨150, false⟩], none, false⟩ =
      (.completed,
        ⟨[⟨150, false⟩] ++ copies [⟨150, false⟩] (duplications 500 300),
          none, false⟩) ∧
    duplications 500 300 = 5 := by
  have h := C3_duplication_count 500 300 ⟨[⟨150, false⟩], none, false⟩
    (by norm_num)
  exact ⟨h.1, h.2.2⟩

/-- C4 counterexample: a track holding one zero-width slide with a 20px
computed gap at viewport 500.  The measured track width is 0, so the
duplication pass only schedules a retry and appends nothing, yet
`calculateAnimation` still runs, computes scrollDistance 20 ≠ 0, and marks
the track initialized while its total rendered width 0 is far below
3 × 500. -/
theorem C4_counterexample :
    (pipelinePass ⟨[⟨0, false⟩], none, false⟩ 20 500 defaultSettings).track
        = ⟨[⟨0, false⟩], some 1, true⟩ ∧
    trackWidth (pipelinePass ⟨[⟨0, false⟩], none, false⟩ 20 500
        defaultSettings).track.slides 20 < 3 * 500 := by
  have hW : trackWidth [(⟨0, false⟩ : Slide)] 20 = 0 := by
    norm_num [trackWidth, widthSum]
  have hdup : duplicateSlides 500 0 (⟨[⟨0, false⟩], none, false⟩ : TrackState)
      = (.scheduledRetry, ⟨[⟨0, false⟩], some 1, false⟩) := by
    norm_num [duplicateSlides]
  have hsd : calcScrollDistance [(⟨0, false⟩ : Slide)] 20 = 20 := by
    norm_num [calcScrollDistance, widthSum]
  have hpass : pipelinePass ⟨[⟨0, false⟩], none, false⟩ 20 500 defaultSettings
      = ⟨⟨[⟨0, false⟩], some 1, true⟩, some (20, 20 / 30)⟩ := by
    unfold pipelinePass
    rw [hW, hdup]
    unfold runCalculateAnimation calculateAnimation
    rw [hsd]
    norm_num [defaultSettings]
  rw [hpass]
  exact ⟨rfl, by norm_num [trackWidth, widthSum]⟩

/-- C4 amended: whenever the pipeline pass measures a positive track width,
the duplicated track's total rendered width reaches at least three times
the viewport width, so any track marked initialized by such a pass has
sufficient coverage.  (The counterexample shows the remaining corner: a
zero width measurement with a positive computed gap marks the track
initialized with coverage below 3 × viewport.) -/
theorem C4_amended_coverage
    (t : TrackState) (gap viewportWidth : ℚ) (cfg : Settings)
    (hg : 0 ≤ gap) (hV : 0 ≤ viewportWidth)
    (hW : 0 < trackWidth t.slides gap) :
    3 * viewportWidth ≤
      trackWidth (pipelinePass t gap viewportWidth cfg).track.slides gap := by
  have hne : ¬ t.slides.isEmpty := by
    intro h
    rw [trackWidth, if_pos h] at hW
    exact lt_irrefl 0 hW
  have hne' : t.slides ≠ [] := by
    simpa [List.isEmpty_iff] using hne
  have hW0 : trackWidth t.slides gap ≠ 0 := ne_of_gt hW
  have hslides : (pipelinePass t gap viewportWidth cfg).track.slides
      = t.slides ++
        copies t.slides (duplications viewportWidth (trackWidth t.slides gap)) := by
    unfold pipelinePass
    rw [runCalculateAnimation_slides]
    simp [duplicateSlides, hW0]
  rw [hslides]
  set d := duplications viewportWidth (trackWidth t.slides gap) with hd
  -- the appended track is nonempty, so its width follows the gapped-row formula
  have hnonempty : ¬ (t.slides ++ copies t.slides d).isEmpty := by
    simp [List.isEmpty_iff, hne']
  have hWeq : trackWidth t.slides gap
      = widthSum t.slides + gap * ((t.slides.length : ℚ) - 1) := by
    rw [trackWidth, if_neg (by simpa using hne)]
  have hT : trackWidth (t.slides ++ copies t.slides d) gap
      = (1 + (d : ℚ)) * trackWidth t.slides gap + gap * (d : ℚ) := by
    rw [trackWidth, if_neg (by simpa using hnonempty)]
    rw [widthSum_append, widthSum_copies, List.length_append, length_copies,
      hWeq]
    push_cast
    ring
  -- the duplication count dominates viewportWidth * 3 / trackWidth
  have hx0 : 0 ≤ viewportWidth * 3 / trackWidth t.slides gap :=
    div_nonneg (by linarith) hW.le
  have hmd : (⌈viewportWidth * 3 / trackWidth t.slides gap⌉.toNat : ℚ)
      ≤ (d : ℚ) := by
    have hnat : ⌈viewportWidth * 3 / trackWidth t.slides gap⌉.toNat
        ≤ d := by
      rw [hd, duplications]
      exact le_max_right _ _
    exact_mod_cast hnat
  have hceil : viewportWidth * 3 / trackWidth t.slides gap
      ≤ (⌈viewportWidth * 3 / trackWidth t.slides gap⌉.toNat : ℚ) := by
    have h1 : ((⌈viewportWidth * 3 / trackWidth t.slides gap⌉.toNat : ℤ) : ℚ)
        = ((⌈viewportWidth * 3 / trackWidth t.slides gap⌉ : ℤ) : ℚ) := by
      rw [Int.toNat_of_nonneg (Int.ceil_nonneg hx0)]
    calc viewportWidth * 3 / trackWidth t.slides gap
        ≤ ((⌈viewportWidth * 3 / trackWidth t.slides gap⌉ : ℤ) : ℚ) :=
          Int.le_ceil _
      _ = (⌈viewportWidth * 3 / trackWidth t.slides gap⌉.toNat : ℚ) := by
          rw [← h1]; push_cast; ring
  have hdx : viewportWidth * 3 / trackWidth t.slides gap ≤ (d : ℚ) :=
    le_trans hceil hmd
  have hdW : viewportWidth * 3 ≤ (d : ℚ) * trackWidth t.slides gap := by
    calc viewportWidth * 3
        = viewportWidth * 3 / trackWidth t.slides gap
            * trackWidth t.slides gap := (div_mul_cancel₀ _ hW0).symm
      _ ≤ (d : ℚ) * trackWidth t.slides gap :=
          mul_le_mul_of_nonneg_right hdx hW.le
  have hgd : 0 ≤ gap * (d : ℚ) := mul_nonneg hg (by positivity)
  rw [hT]
  nlinarith [hW, hdW, hgd]

/-- Witness for C4 amended: one 100-wide slide, gap 20, viewport 500 — the
pass appends enough clones to cover 1500 pixels. -/
theorem C4_amended_witness :
    3 * 500 ≤
      trackWidth (pipelinePass ⟨[⟨100, false⟩], none, false⟩ 20 500
          defaultSettings).track.slides 20 :=
  C4_amended_coverage ⟨[⟨100, false⟩], none, false⟩ 20 500 defaultSettings
    (by norm_num) (by norm_num)
    (by norm_num [trackWidth, widthSum])

/-- Outcome of one build attempt of the pipeline started in `buildLayout`
(lines 199-203): the slides were duplicated, a zero-width retry is still
scheduled when the supplied frames run out, or the retry bound was hit
(the `console.warn` on line 356, the MeasurementUnavailable report). -/
inductive BuildOutcome
  | completed (r : PassResult)
  | pending (r : PassResult)
  | measurementUnavailable (r : PassResult)
deriving DecidableEq, Repr

/-- The zero-width retry loop: each `requestAnimationFrame` callback
scheduled on line 360 re-invokes `duplicateSlides` alone, with that frame's
measured track width.  `published` carries whatever the single synchronous
`calculateAnimation` call published; the retries never recompute it. -/
def retryFrames (viewportWidth : ℚ) (published : Option (ℚ × ℚ)) :
    List ℚ → TrackState → BuildOutcome
  | [], t => .pending ⟨t, published⟩
  | W :: rest, t =>
    match duplicateSlides viewportWidth W t with
    | (.completed, t₁) => .completed ⟨t₁, published⟩
    | (.measurementUnavailable, t₁) => .measurementUnavailable ⟨t₁, published⟩
    | (.scheduledRetry, t₁) => retryFrames viewportWidth published rest t₁

/-- A full build attempt: the initial synchronous `duplicateSlides` call
measuring `firstW`, then — whatever it returned — `calculateAnimation`,
then the scheduled frame retries (which run `duplicateSlides` only). -/
def buildRun (gap viewportWidth : ℚ) (cfg : Settings) (firstW : ℚ)
    (frameWidths : List ℚ) (t : TrackState) : BuildOutcome :=
  match duplicateSlides viewportWidth firstW t with
  | (.completed, t₁) =>
      .completed (runCalculateAnimation gap viewportWidth cfg t₁)
  | (.measurementUnavailable, t₁) =>
      .measurementUnavailable (runCalculateAnimation gap viewportWidth cfg t₁)
  | (.scheduledRetry, t₁) =>
      let r₁ := runCalculateAnimation gap viewportWidth cfg t₁
      retryFrames viewportWidth r₁.published frameWidths r₁.track

theorem duplicateSlides_zero_fresh (viewportWidth : ℚ) (t : TrackState)
    (h : t.duplicationAttempts = none) :
    duplicateSlides viewportWidth 0 t =
      (.scheduledRetry, { t with duplicationAttempts := some 1 }) := by
  simp [duplicateSlides, h]

theorem duplicateSlides_zero_retry (viewportWidth : ℚ) (t : TrackState)
    (a : Nat) (h : t.duplicationAttempts = some a) (ha : a ≤ 100) :
    duplicateSlides viewportWidth 0 t =
      (.scheduledRetry, { t with duplicationAttempts := some (a + 1) }) := by
  have hc : ¬ (a > 100) := by omega
  simp only [duplicateSlides, if_pos rfl, h, Option.getD_some, if_neg hc]
  simp

theorem duplicateSlides_zero_abort (viewportWidth : ℚ) (t : TrackState)
    (h : t.duplicationAttempts = some 101) :
    duplicateSlides viewportWidth 0 t = (.measurementUnavailable, t) := by
  have hc : (101 : Nat) > 100 := by omega
  simp only [duplicateSlides, if_pos rfl, h, Option.getD_some, if_pos hc]
  simp

theorem retryFrames_zeros_pending (viewportWidth : ℚ)
    (published : Option (ℚ × ℚ)) :
    ∀ (k a : Nat) (t : TrackState), t.duplicationAttempts = some a →
      a + k ≤ 101 →
      retryFrames viewportWidth published (List.replicate k 0) t =
        .pending ⟨{ t with duplicationAttempts := some (a + k) }, published⟩ := by
  intro k
  induction k with
  | zero =>
    intro a t h _
    obtain ⟨s, da, i⟩ := t
    cases h
    rfl
  | succ k ih =>
    intro a t h hle
    rw [List.replicate_succ]
    simp only [retryFrames]
    rw [duplicateSlides_zero_retry viewportWidth t a h (by omega)]
    have h2 := ih (a + 1) { t with duplicationAttempts := some (a + 1) } rfl
      (by omega)
    rw [show a + 1 + k = a + (k + 1) by omega] at h2
    exact h2

theorem retryFrames_single_zero_abort (viewportWidth : ℚ)
    (published : Option (ℚ × ℚ)) (t : TrackState)
    (h : t.duplicationAttempts = some 101) :
    retryFrames viewportWidth published [0] t =
      .measurementUnavailable ⟨t, published⟩ := by
  simp only [retryFrames]
  rw [duplicateSlides_zero_abort viewportWidth t h]

theorem retryFrames_append (viewportWidth : ℚ) (published : Option (ℚ × ℚ))
    (xs ys : List ℚ) :
    ∀ t : TrackState,
      retryFrames viewportWidth published (xs ++ ys) t =
        match retryFrames viewportWidth published xs t with
        | .completed r => .completed r
        | .measurementUnavailable r => .measurementUnavailable r
        | .pending r => retryFrames viewportWidth published ys r.track := by
  induction xs with
  | nil => intro t; rfl
  | cons W xs ih =>
    intro t
    rw [List.cons_append]
    simp only [retryFrames]
    rcases hdup : duplicateSlides viewportWidth W t with ⟨sig, t₁⟩
    cases sig <;> simp only [ih]

/-- The frame retries over 101 consecutive zero-width measurements, started
with the counter at 1 (as the initial call leaves it): the first 100 frames
re-schedule, the 101st reads counter 101 > 100 and aborts, leaving the
slides untouched. -/
theorem retryFrames_101_zeros_abort (viewportWidth : ℚ)
    (published : Option (ℚ × ℚ)) (t : TrackState)
    (h : t.duplicationAttempts = some 1) :
    retryFrames viewportWidth published (List.replicate 101 0) t =
      .measurementUnavailable
        ⟨{ t with duplicationAttempts := some 101 }, published⟩ := by
  have hsplit : (List.replicate 101 (0 : ℚ)) =
      List.replicate 100 0 ++ [0] := by
    rw [← List.replicate_succ']
  rw [hsplit, retryFrames_append]
  rw [retryFrames_zeros_pending viewportWidth published 100 1 t h (by omega)]
  exact retryFrames_single_zero_abort viewportWidth published _ rfl

/-- C5 counterexample: a track with one zero-width slide, computed gap 20,
viewport 500 and 101 consecutive zero-width frames.  The retry loop does
report MeasurementUnavailable with no clones appended, but the track ends
the run CARRYING the `initialized` marking: the synchronous
`calculateAnimation` call that follows the first deferred duplication
computed scrollDistance 20 ≠ 0 and marked the track before the retries
began. -/
theorem C5_counterexample :
    buildRun 20 500 defaultSettings 0 (List.replicate 101 0)
        ⟨[⟨0, false⟩], none, false⟩
      = .measurementUnavailable
          ⟨⟨[⟨0, false⟩], some 101, true⟩, some (20, 2 / 3)⟩ := by
  have hsd : calcScrollDistance [(⟨0, false⟩ : Slide)] 20 = 20 := by
    norm_num [calcScrollDistance, widthSum]
  have hcalc : runCalculateAnimation 20 500 defaultSettings
        ⟨[⟨0, false⟩], some 1, false⟩
      = ⟨⟨[⟨0, false⟩], some 1, true⟩, some (20, 2 / 3)⟩ := by
    unfold runCalculateAnimation calculateAnimation
    rw [hsd]
    norm_num [defaultSettings]
  unfold buildRun
  rw [duplicateSlides_zero_fresh 500 ⟨[⟨0, false⟩], none, false⟩ rfl]
  simp only [hcalc]
  exact retryFrames_101_zeros_abort 500 _ _ rfl

/-- C5 amended: on a fresh track (no attempt counter), zero-width
measurements reschedule `duplicateSlides` while incrementing the counter;
after 100 frame retries the run is still pending with the counter at 101,
and the 101st zero-width frame aborts with the MeasurementUnavailable
report, leaving the slides untouched (no clones).  The track ends without
the `initialized` marking provided the interleaved timing pass computed
scrollDistance 0 — the counterexample shows that with a positive computed
gap the marking is set despite the abort. -/
theorem C5_amended_retry_bound
    (t : TrackState) (gap viewportWidth : ℚ) (cfg : Settings)
    (hfresh : t.duplicationAttempts = none)
    (hzero : calcScrollDistance t.slides gap = 0) :
    buildRun gap viewportWidth cfg 0 (List.replicate 100 0) t =
      .pending ⟨{ t with duplicationAttempts := some 101 }, none⟩ ∧
    buildRun gap viewportWidth cfg 0 (List.replicate 101 0) t =
      .measurementUnavailable
        ⟨{ t with duplicationAttempts := some 101 }, none⟩ := by
  have hcalc : runCalculateAnimation gap viewportWidth cfg
        { t with duplicationAttempts := some 1 }
      = ⟨{ t with duplicationAttempts := some 1 }, none⟩ := by
    unfold runCalculateAnimation calculateAnimation
    rw [show ({ t with duplicationAttempts := some 1 } : TrackState).slides
      = t.slides from rfl, hzero]
    rfl
  constructor
  · unfold buildRun
    rw [duplicateSlides_zero_fresh viewportWidth t hfresh]
    simp only [hcalc]
    exact retryFrames_zeros_pending viewportWidth none 100 1 _ rfl (by omega)
  · unfold buildRun
    rw [duplicateSlides_zero_fresh viewportWidth t hfresh]
    simp only [hcalc]
    exact retryFrames_101_zeros_abort viewportWidth none _ rfl

/-- Witness for C5 amended: an empty base sequence with zero gap at
viewport 500 — 100 zero frames leave the run pending, the 101st aborts,
with no clones and no `initialized` marking. -/
theorem C5_amended_witness :
    buildRun 0 500 defaultSettings 0 (List.replicate 100 0)
        ⟨[], none, false⟩
      = .pending ⟨⟨[], some 101, false⟩, none⟩ ∧
    buildRun 0 500 defaultSettings 0 (List.replicate 101 0)
        ⟨[], none, false⟩
      = .measurementUnavailable ⟨⟨[], some 101, false⟩, none⟩ :=
  C5_amended_retry_bound ⟨[], none, false⟩ 0 500 defaultSettings rfl
    (by norm_num [calcScrollDistance, widthSum])

/-- Result of a `resetSlider` call (lines 413-443): either one of the
early returns fires and nothing happens, or the track is cleared, the base
sequence rebuilt and the duplication + timing pipeline rerun. -/
inductive ResetOutcome
  | noop
  | reconciled (r : PassResult)
deriving DecidableEq, Repr

/-- `resetSlider`: the guards on lines 414-417 (`imagesLoaded`, track
present, `dataset.initialized` set), then `innerHTML = ""`, the rebuild of
the base slides from the item source (modelled by the freshly measured
`rebuiltBase` list), deletion of `dataset.initialized`, and the
`duplicateSlides` + `calculateAnimation` rerun.  `innerHTML = ""` clears
children but not dataset attributes, so a stale `duplicationAttempts`
value survives into the rerun. -/
def resetSlider (imagesLoaded : Bool) (track : Option TrackState)
    (rebuiltBase : List Slide) (gap viewportWidth : ℚ) (cfg : Settings) :
    ResetOutcome :=
  if !imagesLoaded then .noop
  else
    match track with
    | none => .noop
    | some t =>
      if !t.initialized then .noop
      else
        .reconciled
          (pipelinePass ⟨rebuiltBase, t.duplicationAttempts, false⟩ gap
            viewportWidth cfg)

/-- C7 counterexample: an instance whose build attempt ended in
MeasurementUnavailable (images loaded, track present, counter stuck at
101, `initialized` never set).  A later settled resize calls
`resetSlider`, which returns early because `dataset.initialized` is
absent: no reconciliation happens, so resize is not a recovery path out of
the un-initialized state. -/
theorem C7_counterexample :
    resetSlider true (some ⟨[⟨0, false⟩], some 101, false⟩) [⟨100, false⟩]
        20 500 defaultSettings = .noop := rfl

/-- C7 amended: a settled resize triggers the full reconciliation
(clear, rebuild, rerun Duplicator and Timing Calculator) only when images
have loaded, the track exists AND the track is currently marked
initialized; in every other state — in particular after a
MeasurementUnavailable failure, which leaves the track un-initialized —
`resetSlider` is a no-op and the instance stays un-initialized. -/
theorem C7_amended_reset_guard
    (t : TrackState) (track : Option TrackState)
    (rebuiltBase : List Slide) (gap viewportWidth : ℚ) (cfg : Settings) :
    (resetSlider false track rebuiltBase gap viewportWidth cfg = .noop) ∧
    (resetSlider true none rebuiltBase gap viewportWidth cfg = .noop) ∧
    (t.initialized = false →
      resetSlider true (some t) rebuiltBase gap viewportWidth cfg = .noop) ∧
    (t.initialized = true →
      resetSlider true (some t) rebuiltBase gap viewportWidth cfg =
        .reconciled
          (pipelinePass ⟨rebuiltBase, t.duplicationAttempts, false⟩ gap
            viewportWidth cfg)) := by
  refine ⟨rfl, rfl, ?_, ?_⟩ <;> intro h <;> simp [resetSlider, h]

/-- Witness for C7 amended: the un-initialized post-failure track is left
alone; an initialized track is fully reconciled. -/
theorem C7_amended_witness :
    (resetSlider true (some ⟨[⟨0, false⟩], some 101, false⟩) [⟨30, false⟩]
        10 500 defaultSettings = .noop) ∧
    (resetSlider true (some ⟨[⟨100, false⟩], none, true⟩) [⟨100, false⟩]
        20 500 defaultSettings =
      .reconciled
        (pipelinePass ⟨[⟨100, false⟩], none, false⟩ 20 500
          defaultSettings)) :=
  ⟨(C7_amended_reset_guard ⟨[⟨0, false⟩], some 101, false⟩ none [⟨30, false⟩]
      10 500 defaultSettings).2.2.1 rfl,
    (C7_amended_reset_guard ⟨[⟨100, false⟩], none, true⟩ none [⟨100, false⟩]
      20 500 defaultSettings).2.2.2 rfl⟩

/-- The shared custom cursor's state: target and current (interpolated)
position plus its running animation loop (`rafId` assigned). -/
structure SharedCursor where
  targetX : ℚ
  targetY : ℚ
  currentX : ℚ
  currentY : ℚ
  running : Bool
deriving DecidableEq, Repr

/-- The class-level overlay state: `WMInfiniteSlider.sharedCursor` (the
singleton, `none` when absent) and `WMInfiniteSlider.cursorInstances`
(the registrant set, instances keyed by id). -/
structure OverlayState where
  sharedCursor : Option SharedCursor
  cursorInstances : Finset Nat
deriving DecidableEq

/-- `initSharedCursor` (lines 523-594): the overlay is created with its
position initialised to the left edge (x = 0) halfway down the screen
(y = innerHeight / 2), for both target and current, and the per-frame
interpolation loop is started. -/
def initSharedCursor (viewportHeight : ℚ) : SharedCursor :=
  ⟨0, viewportHeight / 2, 0, viewportHeight / 2, true⟩

/-- The registration part of `createCustomCursor` (lines 449-458): create
the singleton if absent, then add this instance to the registrant set. -/
def createCustomCursor (viewportHeight : ℚ) (inst : Nat) (o : OverlayState) :
    OverlayState :=
  let o₁ :=
    if o.sharedCursor.isSome then o
    else { o with sharedCursor := some (initSharedCursor viewportHeight) }
  { o₁ with cursorInstances := insert inst o₁.cursorInstances }

/-- The overlay part of `destroy` (lines 632-641): remove this instance
from the registrant set; when the set becomes empty, cancel the
interpolation loop and remove the overlay entirely. -/
def destroyUnregister (inst : Nat) (o : OverlayState) : OverlayState :=
  let remaining := o.cursorInstances.erase inst
  if remaining = ∅ then ⟨none, remaining⟩
  else { o with cursorInstances := remaining }

/-- The overlay operations instances perform over their lifetimes. -/
inductive OverlayOp
  | register (inst : Nat) (viewportHeight : ℚ)
  | deregister (inst : Nat)
deriving DecidableEq

def applyOverlayOp (o : OverlayState) : OverlayOp → OverlayState
  | .register inst viewportHeight => createCustomCursor viewportHeight inst o
  | .deregister inst => destroyUnregister inst o

/-- Overlay state after a sequence of operations from page load
(`sharedCursor = null`, empty registrant set). -/
def runOverlayOps (ops : List OverlayOp) : OverlayState :=
  ops.foldl applyOverlayOp ⟨none, ∅⟩

/-- The singleton invariant: the overlay exists iff the registrant set is
non-empty. -/
def overlayInvariant (o : OverlayState) : Prop :=
  o.sharedCursor.isSome = true ↔ o.cursorInstances ≠ ∅

theorem applyOverlayOp_invariant (o : OverlayState) (op : OverlayOp)
    (h : overlayInvariant o) : overlayInvariant (applyOverlayOp o op) := by
  cases op with
  | register inst viewportHeight =>
    by_cases hc : o.sharedCursor.isSome <;>
      simp [applyOverlayOp, createCustomCursor, hc, overlayInvariant,
        Finset.insert_ne_empty]
  | deregister inst =>
    by_cases he : o.cursorInstances.erase inst = ∅
    · simp [applyOverlayOp, destroyUnregister, he, overlayInvariant]
    · have hne : o.cursorInstances ≠ ∅ := by
        intro h0
        exact he (by rw [h0]; simp)
      have hsome : o.sharedCursor.isSome = true := h.mpr hne
      simp [applyOverlayOp, destroyUnregister, he, overlayInvariant, hsome]

theorem runOverlayOps_invariant (ops : List OverlayOp) :
    overlayInvariant (runOverlayOps ops) := by
  have h : ∀ (l : List OverlayOp) (o : OverlayState), overlayInvariant o →
      overlayInvariant (l.foldl applyOverlayOp o) := by
    intro l
    induction l with
    | nil => exact fun o h => h
    | cons op l ih => exact fun o h => ih _ (applyOverlayOp_invariant o op h)
  exact h ops ⟨none, ∅⟩ (by simp [overlayInvariant])

/-- C9: the shared overlay is a reference-counted singleton.  From page
load, every op sequence keeps "overlay exists iff registrant set
non-empty"; the first requester creates it with position reset to the left
edge at mid-viewport height and the loop running; later requesters only
grow the registrant set; deregistering a non-last instance leaves the
overlay untouched; deregistering the last stops the loop and removes it
(yielding the pristine empty state, so the next registration builds a
fresh overlay). -/
theorem C9_overlay_refcount :
    (∀ ops : List OverlayOp, overlayInvariant (runOverlayOps ops)) ∧
    (∀ (inst : Nat) (viewportHeight : ℚ),
      createCustomCursor viewportHeight inst ⟨none, ∅⟩ =
        ⟨some (initSharedCursor viewportHeight), {inst}⟩) ∧
    (∀ viewportHeight : ℚ, initSharedCursor viewportHeight =
        ⟨0, viewportHeight / 2, 0, viewportHeight / 2, true⟩) ∧
    (∀ (inst : Nat) (viewportHeight : ℚ) (o : OverlayState)
        (c : SharedCursor), o.sharedCursor = some c →
      createCustomCursor viewportHeight inst o =
        ⟨some c, insert inst o.cursorInstances⟩) ∧
    (∀ (inst : Nat) (o : OverlayState), o.cursorInstances.erase inst ≠ ∅ →
      (destroyUnregister inst o).sharedCursor = o.sharedCursor ∧
      (destroyUnregister inst o).cursorInstances =
        o.cursorInstances.erase inst) ∧
    (∀ (inst : Nat) (o : OverlayState), o.cursorInstances.erase inst = ∅ →
      destroyUnregister inst o = ⟨none, ∅⟩) := by
  refine ⟨runOverlayOps_invariant, ?_, fun _ => rfl, ?_, ?_, ?_⟩
  · intro inst viewportHeight
    simp [createCustomCursor]
  · intro inst viewportHeight o c hc
    simp [createCustomCursor, hc]
  · intro inst o he
    simp [destroyUnregister, he]
  · intro inst o he
    simp [destroyUnregister, he]

/-- Witness for C9: the two-instance scenario — 1 registers (fresh
overlay), 2 registers (same overlay, set grows), 1 deregisters (overlay
stays), 2 deregisters (overlay removed); plus the invariant on that very
op sequence. -/
theorem C9_overlay_witness :
    overlayInvariant (runOverlayOps
      [.register 1 800, .register 2 800, .deregister 1, .deregister 2]) ∧
    createCustomCursor 800 1 ⟨none, ∅⟩ =
      ⟨some (initSharedCursor 800), {1}⟩ ∧
    createCustomCursor 800 2 ⟨some (initSharedCursor 800), {1}⟩ =
      ⟨some (initSharedCursor 800), insert 2 {1}⟩ ∧
    (destroyUnregister 1
        ⟨some (initSharedCursor 800), insert 2 {1}⟩).sharedCursor =
      some (initSharedCursor 800) ∧
    destroyUnregister 2 ⟨some (initSharedCursor 800), {2}⟩ = ⟨none, ∅⟩ :=
  ⟨C9_overlay_refcount.1 _,
    C9_overlay_refcount.2.1 1 800,
    C9_overlay_refcount.2.2.2.1 2 800 ⟨some (initSharedCursor 800), {1}⟩
      (initSharedCursor 800) rfl,
    (C9_overlay_refcount.2.2.2.2.1 1
      ⟨some (initSharedCursor 800), insert 2 {1}⟩ (by decide)).1,
    C9_overlay_refcount.2.2.2.2.2 2 ⟨some (initSharedCursor 800), {2}⟩
      (by decide)⟩

/-- Browser scheduler state: the ids of `setTimeout` callbacks and
animation-frame callbacks still pending. -/
structure SchedulerState where
  pendingTimeouts : Finset Nat
  pendingFrames : Finset Nat
deriving DecidableEq

/-- Per-instance handles: `this.resizeTimer`, the id of a pending
zero-width duplication retry frame — which exists in the browser but is
never stored by the instance (line 360 discards the
`requestAnimationFrame` return value) — and the destroyed marker. -/
structure EngineHandles where
  resizeTimer : Option Nat
  retryFrameId : Option Nat
  destroyed : Bool
deriving DecidableEq

/-- `clearTimeout(this.resizeTimer)` (lines 672-674). -/
def clearResizeTimer (h : Option Nat) (s : SchedulerState) : SchedulerState :=
  match h with
  | none => s
  | some i => { s with pendingTimeouts := s.pendingTimeouts.erase i }

/-- `destroy` (lines 620-678) as it affects pending tasks and the shared
overlay: it deregisters the instance (tearing the overlay down when it was
the last registrant), clears the resize debounce timeout, and completes.
No `cancelAnimationFrame` is ever issued for a pending zero-width
duplication retry — its frame id was never stored — so that callback stays
scheduled and still runs after destruction. -/
def destroyInstance (inst : Nat) (e : EngineHandles) (s : SchedulerState)
    (o : OverlayState) : EngineHandles × SchedulerState × OverlayState :=
  ({ e with destroyed := true },
    clearResizeTimer e.resizeTimer s,
    destroyUnregister inst o)

/-- C8 counterexample: an instance with a pending resize timeout (id 7)
and a pending zero-width duplication retry frame (id 9).  After `destroy`
the instance is destroyed and the timeout is cancelled, but frame 9 is
still pending — the retry reschedule is NOT cancelled and will run
afterwards, contrary to the claim. -/
theorem C8_counterexample :
    (destroyInstance 1 ⟨some 7, some 9, false⟩ ⟨{7}, {9}⟩
        ⟨some (initSharedCursor 600), {1}⟩).1.destroyed = true ∧
    9 ∈ (destroyInstance 1 ⟨some 7, some 9, false⟩ ⟨{7}, {9}⟩
        ⟨some (initSharedCursor 600), {1}⟩).2.1.pendingFrames :=
  ⟨rfl, by decide⟩

/-- C8 amended: destroying an instance marks it destroyed, cancels its
pending resize-debounce timeout and removes it from the overlay registrant
set, but leaves the set of pending animation frames — including any
pending zero-width-measurement retry belonging to it — completely
untouched, so such a retry still fires after destruction. -/
theorem C8_amended_destroy
    (inst : Nat) (e : EngineHandles) (s : SchedulerState) (o : OverlayState) :
    (destroyInstance inst e s o).1.destroyed = true ∧
    (∀ i, e.resizeTimer = some i →
      i ∉ (destroyInstance inst e s o).2.1.pendingTimeouts) ∧
    inst ∉ (destroyInstance inst e s o).2.2.cursorInstances ∧
    (destroyInstance inst e s o).2.1.pendingFrames = s.pendingFrames := by
  refine ⟨rfl, ?_, ?_, ?_⟩
  · intro i hi
    simp only [destroyInstance, clearResizeTimer, hi]
    exact Finset.not_mem_erase i s.pendingTimeouts
  · unfold destroyInstance destroyUnregister
    by_cases he : o.cursorInstances.erase inst = ∅ <;>
      simp [he, Finset.not_mem_erase]
  · unfold destroyInstance clearResizeTimer
    cases e.resizeTimer <;> rfl

/-- Witness for C8 amended: instance 1, timeout 7, pending retry frame 9,
registrant set {1, 2}. -/
theorem C8_amended_witness :
    (destroyInstance 1 ⟨some 7, some 9, false⟩ ⟨{7}, {9}⟩
        ⟨some (initSharedCursor 600), insert 1 {2}⟩).1.destroyed = true ∧
    7 ∉ (destroyInstance 1 ⟨some 7, some 9, false⟩ ⟨{7}, {9}⟩
        ⟨some (initSharedCursor 600), insert 1 {2}⟩).2.1.pendingTimeouts ∧
    1 ∉ (destroyInstance 1 ⟨some 7, some 9, false⟩ ⟨{7}, {9}⟩
        ⟨some (initSharedCursor 600), insert 1 {2}⟩).2.2.cursorInstances ∧
    (destroyInstance 1 ⟨some 7, some 9, false⟩ ⟨{7}, {9}⟩
        ⟨some (initSharedCursor 600), insert 1 {2}⟩).2.1.pendingFrames
      = {9} := by
  have h := C8_amended_destroy 1 ⟨some 7, some 9, false⟩ ⟨{7}, {9}⟩
    ⟨some (initSharedCursor 600), insert 1 {2}⟩
  exact ⟨h.1, h.2.1 7 rfl, h.2.2.1, h.2.2.2⟩

/-- An item's image data (`item.image`). -/
structure ItemImage where
  assetUrl : String
deriving DecidableEq, Repr

/-- An authored item from `contextData.userItems`: the image reference is
optional — `buildLayout` and `resetSlider` test `if (item.image)`. -/
structure Item where
  image : Option ItemImage
  title : Option String
deriving DecidableEq, Repr

/-- A slide node produced by `buildSlide` (lines 206-245):
`dataset.index` keeps the item's position in the FULL item list, `img.src`
is the item's `assetUrl`, and the node carries no `cloned` class. -/
structure RenderedSlide where
  index : Nat
  assetUrl : String
  cloned : Bool
deriving DecidableEq, Repr

/-- `buildSlide(item, index)`, called only under the `item.image` check. -/
def buildSlide (index : Nat) (img : ItemImage) : RenderedSlide :=
  ⟨index, img.assetUrl, false⟩

/-- The data-driven build loop (lines 181-186, identically 429-434):
`data.forEach((item, index) => if (item.image) append(buildSlide(...)))`.
The forEach index runs over the whole list, so skipped items still advance
it. -/
def buildSlidesFrom (data : List Item) (index : Nat) : List RenderedSlide :=
  match data with
  | [] => []
  | item :: rest =>
    match item.image with
    | some img => buildSlide index img :: buildSlidesFrom rest (index + 1)
    | none => buildSlidesFrom rest (index + 1)

/-- `cloneOriginalSlide` in preserve mode (lines 247-290), as far as the
slide list goes: the preserved slide is deep-cloned and re-indexed. -/
def cloneOriginalSlide (r : RenderedSlide) (index : Nat) : RenderedSlide :=
  { r with index := index }

/-- The preserve-mode loop (lines 176-179, identically 424-427). -/
def clonePreservedFrom (slides : List RenderedSlide) (index : Nat) :
    List RenderedSlide :=
  match slides with
  | [] => []
  | s :: rest => cloneOriginalSlide s index :: clonePreservedFrom rest (index + 1)

/-- The slide list `buildLayout` renders into the fresh track
(lines 152-187). -/
def buildLayoutSlides (preserveStructure : Bool)
    (originalSlides : List RenderedSlide) (data : List Item) :
    List RenderedSlide :=
  if preserveStructure = true ∧ 0 < originalSlides.length then
    clonePreservedFrom originalSlides 0
  else buildSlidesFrom data 0

/-- The slide list `resetSlider` rebuilds after clearing the track
(lines 422-435) — the same branch and the same loops as `buildLayout`. -/
def resetRebuildSlides (preserveStructure : Bool)
    (originalSlides : List RenderedSlide) (data : List Item) :
    List RenderedSlide :=
  if preserveStructure = true ∧ 0 < originalSlides.length then
    clonePreservedFrom originalSlides 0
  else buildSlidesFrom data 0

theorem buildSlidesFrom_assetUrls (data : List Item) :
    ∀ index, (buildSlidesFrom data index).map RenderedSlide.assetUrl
      = data.filterMap fun item => item.image.map ItemImage.assetUrl := by
  induction data with
  | nil => intro i; rfl
  | cons item rest ih =>
    intro i
    cases h : item.image with
    | none => simp [buildSlidesFrom, h, List.filterMap_cons, ih]
    | some img => simp [buildSlidesFrom, h, buildSlide, List.filterMap_cons, ih]

theorem buildSlidesFrom_length (data : List Item) :
    ∀ index, (buildSlidesFrom data index).length
      = (data.filter fun item => item.image.isSome).length := by
  induction data with
  | nil => intro i; rfl
  | cons item rest ih =>
    intro i
    cases h : item.image with
    | none => simp [buildSlidesFrom, h, List.filter_cons, ih]
    | some img => simp [buildSlidesFrom, h, List.filter_cons, ih]

theorem buildSlidesFrom_not_cloned (data : List Item) :
    ∀ index, ∀ s ∈ buildSlidesFrom data index, s.cloned = false := by
  induction data with
  | nil => intro i s hs; simp [buildSlidesFrom] at hs
  | cons item rest ih =>
    intro i s hs
    cases h : item.image with
    | none =>
      rw [buildSlidesFrom, h] at hs
      exact ih (i + 1) s hs
    | some img =>
      rw [buildSlidesFrom, h] at hs
      rcases List.mem_cons.mp hs with rfl | hs
      · rfl
      · exact ih (i + 1) s hs

/-- C10: in the data-driven mode (preserve-structure off, or no preserved
slides captured), items without an image are silently skipped by both the
initial build and the resize rebuild: the two loops produce the same list,
whose rendered sources are exactly the image URLs of the items that have
one, whose length is the number of items with an image (so imageless items
contribute nothing to any width sum), and none of whose nodes carries the
clone tag. -/
theorem C10_imageless_items_skipped
    (preserveStructure : Bool) (originalSlides : List RenderedSlide)
    (data : List Item)
    (hmode : preserveStructure = false ∨ originalSlides = []) :
    buildLayoutSlides preserveStructure originalSlides data
        = buildSlidesFrom data 0 ∧
    resetRebuildSlides preserveStructure originalSlides data
        = buildSlidesFrom data 0 ∧
    (buildSlidesFrom data 0).map RenderedSlide.assetUrl
        = (data.filterMap fun item => item.image.map ItemImage.assetUrl) ∧
    (buildSlidesFrom data 0).length
        = (data.filter fun item => item.image.isSome).length ∧
    (∀ s ∈ buildSlidesFrom data 0, s.cloned = false) := by
  have hcond : ¬ (preserveStructure = true ∧ 0 < originalSlides.length) := by
    rcases hmode with h | h <;> simp [h]
  exact ⟨by rw [buildLayoutSlides, if_neg hcond],
    by rw [resetRebuildSlides, if_neg hcond],
    buildSlidesFrom_assetUrls data 0,
    buildSlidesFrom_length data 0,
    buildSlidesFrom_not_cloned data 0⟩

/-- A small item list for the C10 witness: the middle item lacks an
image. -/
def sampleItems : List Item :=
  [⟨some ⟨"a"⟩, none⟩, ⟨none, none⟩, ⟨some ⟨"b"⟩, none⟩]

/-- Witness for C10: three items, the middle one without an image — both
loops render exactly the two image-bearing items. -/
theorem C10_imageless_witness :
    buildLayoutSlides false [] sampleItems = buildSlidesFrom sampleItems 0 ∧
    resetRebuildSlides false [] sampleItems = buildSlidesFrom sampleItems 0 ∧
    (buildSlidesFrom sampleItems 0).map RenderedSlide.assetUrl
      = (sampleItems.filterMap fun item =>
          item.image.map ItemImage.assetUrl) ∧
    (buildSlidesFrom sampleItems 0).length
      = (sampleItems.filter fun item => item.image.isSome).length ∧
    (∀ s ∈ buildSlidesFrom sampleItems 0, s.cloned = false) :=
  C10_imageless_items_skipped false [] sampleItems (Or.inl rfl)

end WMInfiniteSlider
